import Mathlib

/-!
Verification of the kokoro_announce validation / audio-output / pipeline layer.

The Python modules `validation.py`, `audio.py`, `cli.py`, `announcer.py` and
`pipeline.py` are shallowly embedded below.  Python `str` values are modelled
as `List Char`; Python `float` as `ℚ`; Python exceptions as `Except` results;
filesystem and subprocess behaviour as explicit environment records.
-/

namespace KokoroAnnounce

/-- Python strings are modelled as lists of characters. -/
abbrev PyStr := List Char

/-- Characters stripped by Python `str.strip()` (ASCII whitespace set:
space, tab, newline, carriage return, vertical tab, form feed). -/
def pyIsSpace (c : Char) : Bool :=
  c = ' ' || c = '\t' || c = '\n' || c = '\r' || c = Char.ofNat 11 || c = Char.ofNat 12

/-- Python `str.lstrip()`. -/
def pyLstrip (s : PyStr) : PyStr := s.dropWhile pyIsSpace

/-- Python `str.rstrip()`. -/
def pyRstrip (s : PyStr) : PyStr := (s.reverse.dropWhile pyIsSpace).reverse

/-- Python `str.strip()`. -/
def pyStrip (s : PyStr) : PyStr := pyRstrip (pyLstrip s)

/-- Exceptions raised by the validation module: `ValidationError`
(a `ValueError` subclass raised by each validator) and `OSError`
(possible from `Path.resolve`). -/
inductive PyExn
  | validationError
  | osError
deriving DecidableEq

/-- Embedding of `validation.MIN_SPEED = 0.25`. -/
def MIN_SPEED : ℚ := 1/4

/-- Embedding of `validation.MAX_SPEED = 4.0`. -/
def MAX_SPEED : ℚ := 4

/-- Embedding of `validation.validate_speed`: rejects speeds below `MIN_SPEED` or above
`MAX_SPEED`, returns the value itself (Python returns `float(speed)`)
otherwise.  Speeds are modelled as rationals. -/
def validate_speed (speed : ℚ) : Except PyExn ℚ :=
  if speed < MIN_SPEED ∨ speed > MAX_SPEED then
    .error .validationError
  else
    .ok speed

/-- C2: every speed outside the closed interval `[0.25, 4.0]` is rejected with
a `ValidationError`; every speed inside it (endpoints included) is returned
unchanged. -/
theorem validate_speed_spec (s : ℚ) :
    (s < 1/4 ∨ 4 < s → validate_speed s = .error .validationError) ∧
    (1/4 ≤ s → s ≤ 4 → validate_speed s = .ok s) := by
  unfold validate_speed MIN_SPEED MAX_SPEED
  constructor
  · intro h
    rw [if_pos h]
  · intro h1 h2
    rw [if_neg]
    rintro (hl | hr)
    · exact absurd h1 (not_le.mpr hl)
    · exact absurd h2 (not_le.mpr hr)

/-- Witness for C2: both endpoints are accepted unchanged and `5` is
rejected. -/
theorem validate_speed_spec_witness :
    validate_speed (1/4) = .ok (1/4) ∧ validate_speed 4 = .ok 4 ∧
      validate_speed 5 = .error .validationError :=
  ⟨(validate_speed_spec (1/4)).2 (by norm_num) (by norm_num),
   (validate_speed_spec 4).2 (by norm_num) (by norm_num),
   (validate_speed_spec 5).1 (by norm_num)⟩

/-- Embedding of `validation.MAX_TEXT_LENGTH = 100_000`. -/
def MAX_TEXT_LENGTH : Nat := 100000

/-- Embedding of `validation.validate_text`: strips the text, rejects it when empty or
longer than `MAX_TEXT_LENGTH`, and returns the stripped text otherwise.
(The Python `isinstance(text, str)` guard is vacuous here: every `PyStr`
is a string.) -/
def validate_text (text : PyStr) : Except PyExn PyStr :=
  let t := pyStrip text
  if t.isEmpty then .error .validationError
  else if t.length > MAX_TEXT_LENGTH then .error .validationError
  else .ok t

/-- ASCII range `[a-z]` of the voice-name regular expression. -/
def isAsciiLowerAlpha (c : Char) : Bool :=
  decide (97 ≤ c.toNat) && decide (c.toNat ≤ 122)

/-- ASCII range `[0-9]` of the voice-name regular expression. -/
def isAsciiDigit (c : Char) : Bool :=
  decide (48 ≤ c.toNat) && decide (c.toNat ≤ 57)

/-- Character class `[a-z0-9_]` of the voice-name regular expression. -/
def isVoiceTailChar (c : Char) : Bool :=
  isAsciiLowerAlpha c || isAsciiDigit c || c = '_'

/-- Embedding of `validation.VOICE_NAME_PATTERN` (the anchored regex
of two lowercase letters, an underscore, and one or more characters of
`[a-z0-9_]`), as a full-string matcher. -/
def voiceNamePatternMatch (s : PyStr) : Bool :=
  match s with
  | c1 :: c2 :: u :: rest =>
      isAsciiLowerAlpha c1 && isAsciiLowerAlpha c2 && (u = '_') &&
        !rest.isEmpty && rest.all isVoiceTailChar
  | _ => false

/-- The model-voice file extension `.pt` checked by `validate_voice_name`. -/
def PT_SUFFIX : PyStr := ['.', 'p', 't']

/-- Embedding of `validation.validate_voice_name`: strips the input; accepts it verbatim
when it ends in `.pt`; otherwise accepts it exactly when it matches
`VOICE_NAME_PATTERN`; rejects every other string. -/
def validate_voice_name (voice : PyStr) : Except PyExn PyStr :=
  let v := pyStrip voice
  if PT_SUFFIX.isSuffixOf v then .ok v
  else if voiceNamePatternMatch v then .ok v
  else .error .validationError

/-- Declarative reading of `VOICE_NAME_PATTERN`: a two-letter lowercase
prefix, an underscore, and a nonempty identifier over `[a-z0-9_]`. -/
def VoicePatternProp (s : PyStr) : Prop :=
  ∃ c1 c2 rest, s = c1 :: c2 :: '_' :: rest ∧
    isAsciiLowerAlpha c1 = true ∧ isAsciiLowerAlpha c2 = true ∧
    rest ≠ [] ∧ ∀ c ∈ rest, isVoiceTailChar c = true

theorem voiceNamePatternMatch_iff (s : PyStr) :
    voiceNamePatternMatch s = true ↔ VoicePatternProp s := by
  constructor
  · intro h
    match s with
    | [] => simp [voiceNamePatternMatch] at h
    | [c1] => simp [voiceNamePatternMatch] at h
    | [c1, c2] => simp [voiceNamePatternMatch] at h
    | c1 :: c2 :: u :: rest =>
      simp only [voiceNamePatternMatch, Bool.and_eq_true, Bool.not_eq_true',
        decide_eq_true_eq, List.all_eq_true] at h
      obtain ⟨⟨⟨⟨h1, h2⟩, hu⟩, h3⟩, h4⟩ := h
      subst hu
      refine ⟨c1, c2, rest, rfl, h1, h2, ?_, h4⟩
      intro hc
      rw [hc] at h3
      simp at h3
  · rintro ⟨c1, c2, rest, rfl, h1, h2, h3, h4⟩
    simp only [voiceNamePatternMatch, Bool.and_eq_true, Bool.not_eq_true',
      decide_eq_true_eq, List.all_eq_true]
    refine ⟨⟨⟨⟨h1, h2⟩, trivial⟩, ?_⟩, h4⟩
    simpa using h3

/-- C8: voice-name validation accepts exactly the inputs whose stripped form
either matches the `VOICE_NAME_PATTERN` regular expression (two lowercase
letters, an underscore, a nonempty `[a-z0-9_]` identifier) or ends in the
model-voice file extension `.pt`; every other input is rejected with a
`ValidationError`.  (Per the normalization step of the validator, surrounding
whitespace is stripped before the check.) -/
theorem validate_voice_name_spec (voice : PyStr) :
    (∃ w, validate_voice_name voice = .ok w) ↔
      (VoicePatternProp (pyStrip voice) ∨ PT_SUFFIX <:+ pyStrip voice) := by
  simp only [validate_voice_name]
  by_cases h1 : PT_SUFFIX.isSuffixOf (pyStrip voice) = true
  · rw [if_pos h1]
    exact ⟨fun _ => Or.inr (List.isSuffixOf_iff_suffix.mp h1), fun _ => ⟨_, rfl⟩⟩
  · rw [if_neg h1]
    by_cases h2 : voiceNamePatternMatch (pyStrip voice) = true
    · rw [if_pos h2]
      exact ⟨fun _ => Or.inl ((voiceNamePatternMatch_iff _).mp h2), fun _ => ⟨_, rfl⟩⟩
    · rw [if_neg h2]
      constructor
      · rintro ⟨w, hw⟩
        exact absurd hw (by simp)
      · rintro (hp | hs)
        · exact absurd ((voiceNamePatternMatch_iff _).mpr hp) h2
        · exact absurd (List.isSuffixOf_iff_suffix.mpr hs) h1

/-- Witness for C8: `af_heart` is accepted. -/
theorem validate_voice_name_spec_witness :
    ∃ w, validate_voice_name ("af_heart".toList) = .ok w :=
  (validate_voice_name_spec ("af_heart".toList)).mpr
    (Or.inl ⟨'a', 'f', "heart".toList, by decide, by decide, by decide,
      by decide, by decide⟩)

theorem pt_suffix_lstrip {s : PyStr} (h : PT_SUFFIX <:+ s) :
    PT_SUFFIX <:+ pyLstrip s := by
  induction s with
  | nil =>
    have := List.suffix_nil.mp h
    simp [PT_SUFFIX] at this
  | cons a t ih =>
    by_cases hsp : pyIsSpace a = true
    · rcases List.suffix_cons_iff.mp h with heq | h'
      · exfalso
        have ha : a = '.' := by
          have := congrArg (fun l => l.head?) heq
          simpa [PT_SUFFIX] using this.symm
        rw [ha] at hsp
        exact absurd hsp (by decide)
      · simpa [pyLstrip, List.dropWhile_cons, hsp] using ih h'
    · simpa [pyLstrip, List.dropWhile_cons, hsp] using h

theorem pt_suffix_rstrip {s : PyStr} (h : PT_SUFFIX <:+ s) : pyRstrip s = s := by
  obtain ⟨u, hu⟩ := h
  rw [← hu]
  have ht : pyIsSpace 't' = false := by decide
  show pyRstrip (u ++ ['.', 'p', 't']) = u ++ ['.', 'p', 't']
  simp [pyRstrip, List.reverse_append, List.dropWhile_cons, ht]

theorem pt_suffix_pyStrip {s : PyStr} (h : PT_SUFFIX <:+ s) :
    PT_SUFFIX <:+ pyStrip s := by
  have h1 := pt_suffix_lstrip h
  unfold pyStrip
  rw [pt_suffix_rstrip h1]
  exact h1

/-- C9: every input ending in `.pt` is returned (stripped) by
`validate_voice_name` with neither the regular-expression check nor any
path-safety containment check applied; in particular relative traversal
paths such as `../../x.pt` and the bare string `.pt` are accepted. -/
theorem validate_voice_name_pt_bypass (voice : PyStr) (h : PT_SUFFIX <:+ voice) :
    validate_voice_name voice = .ok (pyStrip voice) := by
  have h1 := pt_suffix_pyStrip h
  simp only [validate_voice_name]
  rw [if_pos (List.isSuffixOf_iff_suffix.mpr h1)]

/-- Witness for C9: `../../x.pt` and `.pt` are both accepted verbatim. -/
theorem validate_voice_name_pt_bypass_witness :
    validate_voice_name ("../../x.pt".toList) = .ok ("../../x.pt".toList) ∧
      validate_voice_name (".pt".toList) = .ok (".pt".toList) := by
  constructor
  · have h := validate_voice_name_pt_bypass ("../../x.pt".toList) (by decide)
    rw [(by decide : pyStrip ("../../x.pt".toList) = "../../x.pt".toList)] at h
    exact h
  · have h := validate_voice_name_pt_bypass (".pt".toList) (by decide)
    rw [(by decide : pyStrip (".pt".toList) = ".pt".toList)] at h
    exact h

/-!
Path safety.  A filesystem path is modelled as its list of components;
`pathlib.Path.resolve` (which may raise `OSError`) is an environment
function returning `Option`; `Path.relative_to` between resolved absolute
paths succeeds exactly when the components of the base are a prefix of
the components of the path; `Path.parent` drops the last component and
`Path.name` is the last component.
-/
abbrev PyPath := List String

/-- Filesystem environment seen by `validation.py`: path resolution
(`none` models a raised `OSError`), existence tests, and the directories
from which `get_safe_base_paths` builds the permitted bases (`bundleDir`
is `sys._MEIPASS`, present only for frozen executables). -/
structure FileSys where
  resolve : PyPath → Option PyPath
  pathExists : PyPath → Bool
  cwd : PyPath
  home : PyPath
  tmpdir : PyPath
  bundleDir : Option PyPath

/-- Embedding of `validation.get_safe_base_paths`: resolves cwd, home, the temp
directory, and (when frozen) the bundle directory.  A resolution failure
propagates as an exception (`none`). -/
def get_safe_base_paths (fs : FileSys) : Option (List PyPath) :=
  ([fs.cwd, fs.home, fs.tmpdir] ++ fs.bundleDir.toList).mapM fs.resolve

/-- The resolution step at the top of `validation.is_path_safe`: resolve
the path when it exists; for a new file with an existing parent (when
`allow_creation`), resolve the parent and re-append the file name;
otherwise resolve the path itself. -/
def resolveForCheck (fs : FileSys) (path : PyPath) (allowCreation : Bool) :
    Option PyPath :=
  if fs.pathExists path = true then fs.resolve path
  else if allowCreation && fs.pathExists path.dropLast then
    (fs.resolve path.dropLast).map (fun r => r ++ path.drop (path.length - 1))
  else fs.resolve path

/-- Embedding of `validation.is_path_safe`: resolve the path, resolve the safe bases,
and test containment under any base; every exception raised inside
(`none` results) yields `False`. -/
def is_path_safe (fs : FileSys) (path : PyPath) (allowCreation : Bool) : Bool :=
  match resolveForCheck fs path allowCreation with
  | none => false
  | some resolved =>
    match get_safe_base_paths fs with
    | none => false
    | some bases => bases.any (fun b => b.isPrefixOf resolved)

/-- Embedding of `validation.validate_output_path`: resolve the path (an `OSError`
propagates), require `is_path_safe` with `allow_creation=True`, and
return the resolved path. -/
def validate_output_path (fs : FileSys) (path : PyPath) : Except PyExn PyPath :=
  match fs.resolve path with
  | none => .error .osError
  | some resolved =>
    if is_path_safe fs resolved true then .ok resolved
    else .error .validationError

theorem dropLast_append_drop_pred {α : Type} (l : List α) :
    l.dropLast ++ l.drop (l.length - 1) = l := by
  induction l with
  | nil => rfl
  | cons a t ih =>
    cases t with
    | nil => rfl
    | cons b u =>
      simp only [List.dropLast_cons₂, List.length_cons, Nat.add_sub_cancel,
        List.drop_succ_cons, List.cons_append, List.cons.injEq, true_and]
      have hlen : (b :: u).length - 1 = u.length := by simp
      rw [hlen] at ih
      exact ih

/-- C3: whenever resolution is idempotent at the resolved output path and
its parent, an output path whose resolved form lies outside every
permitted base directory is rejected with a `ValidationError`, and an
output path whose resolved form lies under some permitted base is
returned in resolved absolute form. -/
theorem validate_output_path_spec (fs : FileSys) (p r : PyPath) (bs : List PyPath)
    (hres : fs.resolve p = some r)
    (hidem : fs.resolve r = some r)
    (hpar : fs.resolve r.dropLast = some r.dropLast)
    (hbases : get_safe_base_paths fs = some bs) :
    ((∀ b ∈ bs, b.isPrefixOf r = false) →
        validate_output_path fs p = .error .validationError) ∧
    ((∃ b ∈ bs, b.isPrefixOf r = true) →
        validate_output_path fs p = .ok r) := by
  have hrfc : resolveForCheck fs r true = some r := by
    unfold resolveForCheck
    by_cases h1 : fs.pathExists r = true
    · rw [if_pos h1]
      exact hidem
    · rw [if_neg h1]
      by_cases h2 : fs.pathExists r.dropLast = true
      · rw [if_pos (by simp [h2]), hpar]
        show some (r.dropLast ++ r.drop (r.length - 1)) = some r
        rw [dropLast_append_drop_pred]
      · rw [if_neg (by simp [h2])]
        exact hidem
  have hsafe : is_path_safe fs r true = bs.any (fun b => b.isPrefixOf r) := by
    unfold is_path_safe
    rw [hrfc, hbases]
  constructor
  · intro hout
    have hfalse : is_path_safe fs r true = false := by
      rw [hsafe]
      exact List.any_eq_false.mpr (fun b hb => by simp [hout b hb])
    unfold validate_output_path
    rw [hres]
    show (if is_path_safe fs r true = true then Except.ok r
        else Except.error PyExn.validationError) = _
    rw [hfalse]
    simp
  · rintro ⟨b, hb, hpre⟩
    have htrue : is_path_safe fs r true = true := by
      rw [hsafe]
      exact List.any_eq_true.mpr ⟨b, hb, hpre⟩
    unfold validate_output_path
    rw [hres]
    show (if is_path_safe fs r true = true then Except.ok r
        else Except.error PyExn.validationError) = _
    rw [htrue]
    simp

/-- A demonstration filesystem: every path already resolved, everything
exists, safe bases `/home/user` (cwd and home) and `/tmp`, no bundle. -/
def fsDemo : FileSys where
  resolve := fun p => some p
  pathExists := fun _ => true
  cwd := ["home", "user"]
  home := ["home", "user"]
  tmpdir := ["tmp"]
  bundleDir := none

/-- Witness for C3: `/etc/passwd` is rejected and `/home/user/out.wav` is
returned resolved. -/
theorem validate_output_path_spec_witness :
    validate_output_path fsDemo ["etc", "passwd"] = .error .validationError ∧
      validate_output_path fsDemo ["home", "user", "out.wav"] =
        .ok ["home", "user", "out.wav"] := by
  constructor
  · exact (validate_output_path_spec fsDemo ["etc", "passwd"] ["etc", "passwd"]
      [["home", "user"], ["home", "user"], ["tmp"]] rfl rfl rfl rfl).1 (by decide)
  · exact (validate_output_path_spec fsDemo ["home", "user", "out.wav"]
      ["home", "user", "out.wav"]
      [["home", "user"], ["home", "user"], ["tmp"]] rfl rfl rfl rfl).2
      ⟨["home", "user"], by decide, by decide⟩

/-- C10: `is_path_safe` is a total boolean function (it is a Lean `def`
into `Bool`), and it fails closed: whenever the internal path resolution
or the safe-base resolution raises (modelled by `none`), the result is
`false`. -/
theorem is_path_safe_fails_closed (fs : FileSys) (p : PyPath) (ac : Bool)
    (h : resolveForCheck fs p ac = none ∨ get_safe_base_paths fs = none) :
    is_path_safe fs p ac = false := by
  rcases h with h | h
  · unfold is_path_safe
    rw [h]
  · unfold is_path_safe
    rw [h]
    rcases hrfc : resolveForCheck fs p ac with _ | r <;> rfl

/-- A filesystem on which every resolution raises `OSError`. -/
def fsBroken : FileSys where
  resolve := fun _ => none
  pathExists := fun _ => false
  cwd := []
  home := []
  tmpdir := []
  bundleDir := none

/-- Witness for C10: with resolution raising everywhere, `is_path_safe`
returns `false` rather than propagating the exception. -/
theorem is_path_safe_fails_closed_witness :
    is_path_safe fsBroken ["x"] true = false :=
  is_path_safe_fails_closed fsBroken ["x"] true (Or.inl rfl)

/-!
Audio output (`audio.py`).  Output paths are strings; waveform samples are
rationals; the external world (ffmpeg availability, the pydub import, the
temporary-file write, the encoder run) is an environment record; file and
process side effects are recorded as an explicit trace.
-/

/-- Exceptions raised by `audio.py`: `ValueError` (unknown format),
`RuntimeError` (encoder failure or missing encoder), a raised error from
`soundfile.write`, and `subprocess.TimeoutExpired`. -/
inductive AudioError
  | valueError (msg : PyStr)
  | runtimeError (msg : PyStr)
  | soundfileError
  | timeoutExpired
deriving DecidableEq

/-- Observable side effects of the audio writers, in program order. -/
inductive AudioEffect
  | mkdirParents (p : PyStr)
  | finalWavWritten (p : PyStr)
  | tmpWavCreated
  | tmpWavWritten
  | ffmpegInvoked (p : PyStr)
  | tmpWavUnlinkCalled
  | pydubMp3Written (p : PyStr)
deriving DecidableEq

/-- Outcome of the `subprocess.run` ffmpeg invocation. -/
inductive FfmpegOutcome
  | success
  | exitNonzero (stderrText : PyStr)
  | timedOut
deriving DecidableEq

/-- External-world environment of `audio.py`. -/
structure AudioEnv where
  hasFfmpeg : Bool
  pydubImportOk : Bool
  tmpWavWriteOk : Bool
  ffmpegRun : FfmpegOutcome

/-- Embedding of `audio.write_wav`: create parent directories, write the waveform with
`soundfile.write`, return the path. -/
def write_wav (samples : List ℚ) (p : PyStr) (sampleRate : Nat) :
    Except AudioError PyStr × List AudioEffect :=
  (.ok p, [.mkdirParents p, .finalWavWritten p])

/-- Message of the `RuntimeError` raised by `write_mp3` when neither
ffmpeg nor pydub is available. -/
def mp3RequiresFfmpegMsg : PyStr :=
  "MP3 encoding requires ffmpeg. Please install ffmpeg and add it to your PATH.".toList

/-- Message of the `RuntimeError` raised when ffmpeg exits non-zero. -/
def ffmpegFailedMsg (stderrText : PyStr) : PyStr :=
  "ffmpeg failed: ".toList ++ stderrText

/-- Embedding of `audio._write_mp3_ffmpeg`: create a temporary WAV file, write the
waveform to it, run ffmpeg with a 300 s timeout, raise on non-zero exit
or timeout, and in the `finally` block always call `unlink` on the
temporary file (its own `OSError`, if any, is suppressed). -/
def writeMp3Ffmpeg (env : AudioEnv) (samples : List ℚ) (p : PyStr)
    (sampleRate : Nat) (bitrate : PyStr) :
    Except AudioError PyStr × List AudioEffect :=
  if env.tmpWavWriteOk then
    match env.ffmpegRun with
    | .success =>
        (.ok p, [.tmpWavCreated, .tmpWavWritten, .ffmpegInvoked p, .tmpWavUnlinkCalled])
    | .exitNonzero st =>
        (.error (.runtimeError (ffmpegFailedMsg st)),
          [.tmpWavCreated, .tmpWavWritten, .ffmpegInvoked p, .tmpWavUnlinkCalled])
    | .timedOut =>
        (.error .timeoutExpired,
          [.tmpWavCreated, .tmpWavWritten, .ffmpegInvoked p, .tmpWavUnlinkCalled])
  else
    (.error .soundfileError, [.tmpWavCreated, .tmpWavUnlinkCalled])

/-- Embedding of `audio._write_mp3_pydub`: convert and export through pydub (which
itself shells out to ffmpeg; abstracted as a successful export). -/
def writeMp3Pydub (samples : List ℚ) (p : PyStr) (sampleRate : Nat)
    (bitrate : PyStr) : Except AudioError PyStr × List AudioEffect :=
  (.ok p, [.pydubMp3Written p])

/-- Embedding of `audio.write_mp3`: create parent directories; use ffmpeg when the
probe succeeds; otherwise try the pydub import and fall back to it; when
both are unavailable raise the `RuntimeError` naming ffmpeg. -/
def write_mp3 (env : AudioEnv) (samples : List ℚ) (p : PyStr)
    (sampleRate : Nat) (bitrate : PyStr) :
    Except AudioError PyStr × List AudioEffect :=
  let mk := [AudioEffect.mkdirParents p]
  if env.hasFfmpeg then
    let r := writeMp3Ffmpeg env samples p sampleRate bitrate
    (r.1, mk ++ r.2)
  else if env.pydubImportOk then
    let r := writeMp3Pydub samples p sampleRate bitrate
    (r.1, mk ++ r.2)
  else
    (.error (.runtimeError mp3RequiresFfmpegMsg), mk)

/-- The final path component (`pathlib.PurePath.name`): the part after
the last separator, ignoring trailing separators. -/
def lastPathComponent (p : PyStr) : PyStr :=
  (((p.reverse.dropWhile (fun c => c = '/')).takeWhile (fun c => c ≠ '/'))).reverse

/-- Embedding of `pathlib.PurePath.suffix`: the extension of the final component,
including its dot; empty when the final component has no dot or starts
with its only dot. -/
def pySuffix (p : PyStr) : PyStr :=
  let nm := lastPathComponent p
  let tail := nm.reverse.takeWhile (fun c => c ≠ '.')
  if tail.length < nm.length then
    if tail.length + 1 = nm.length then []
    else '.' :: tail.reverse
  else []

/-- Embedding of the expression `path.suffix.lstrip(".").lower()`, the
extension-based format inference shared by `audio.write_audio` and
`cli.get_output_format`. -/
def inferredFormat (p : PyStr) : PyStr :=
  ((pySuffix p).dropWhile (fun c => c = '.')).map Char.toLower

/-- Embedding of `audio.write_audio` (named `writeAudioFile` here): dispatch on the
explicit format, or on the extension-inferred format when `format is
None`; `wav` writes natively, `mp3` goes through `write_mp3` (with the
default `192k` bitrate), anything else raises
`ValueError("Unknown audio format: ...")`. -/
def writeAudioFile (env : AudioEnv) (samples : List ℚ) (p : PyStr)
    (sampleRate : Nat) (format : Option PyStr) :
    Except AudioError PyStr × List AudioEffect :=
  let fmt := match format with
    | some f => f
    | none => inferredFormat p
  if fmt = "wav".toList then write_wav samples p sampleRate
  else if fmt = "mp3".toList then write_mp3 env samples p sampleRate ("192k".toList)
  else (.error (.valueError ("Unknown audio format: ".toList ++ fmt)), [])

/-- Embedding of `validation.VALID_OUTPUT_FORMATS`. -/
def VALID_OUTPUT_FORMATS : List PyStr := ["wav".toList, "mp3".toList]

/-- Embedding of `cli.get_output_format`: the `--format` argument when given,
otherwise the extension of `--out` when it is a recognized format,
otherwise `wav`. -/
def get_output_format (formatArg : Option PyStr) (outPath : PyStr) : PyStr :=
  match formatArg with
  | some f => f
  | none =>
    let ext := inferredFormat outPath
    if ext ∈ VALID_OUTPUT_FORMATS then ext else ("wav".toList)

/-- An environment with every capability available. -/
def fullAudioEnv : AudioEnv := ⟨true, true, true, .success⟩

/-- C1 counterexample: with the format parameter unspecified and an output
path whose extension (`ogg`) is neither `wav` nor `mp3`, `write_audio`
raises `ValueError("Unknown audio format: ogg")` and writes nothing — it
does not default to WAV encoding. -/
theorem writeAudioFile_unknown_ext_fails :
    writeAudioFile fullAudioEnv [] ("out.ogg".toList) 24000 none =
      (.error (.valueError ("Unknown audio format: ogg".toList)), []) := by
  rfl

/-- C1 (amended): with the format parameter unspecified, `write_audio`
infers the format from the extension of the path and dispatches to the WAV or
MP3 writer; for every other extension it raises an unknown-format
`ValueError` instead of defaulting to WAV.  The default-to-WAV behaviour
for unrecognized extensions lives in the CLI function `get_output_format`,
which resolves the format before the write. -/
theorem writeAudioFile_format_dispatch (env : AudioEnv) (samples : List ℚ)
    (p : PyStr) (sr : Nat) :
    (inferredFormat p = "wav".toList →
        writeAudioFile env samples p sr none = write_wav samples p sr) ∧
    (inferredFormat p = "mp3".toList →
        writeAudioFile env samples p sr none =
          write_mp3 env samples p sr ("192k".toList)) ∧
    (inferredFormat p ≠ "wav".toList → inferredFormat p ≠ "mp3".toList →
        writeAudioFile env samples p sr none =
          (.error (.valueError ("Unknown audio format: ".toList ++ inferredFormat p)), []) ∧
        get_output_format none p = "wav".toList) := by
  refine ⟨fun h => ?_, fun h => ?_, fun h1 h2 => ⟨?_, ?_⟩⟩
  · simp only [writeAudioFile]
    rw [h, if_pos rfl]
  · simp only [writeAudioFile]
    rw [h, if_neg (by decide), if_pos rfl]
  · simp only [writeAudioFile]
    rw [if_neg h1, if_neg h2]
  · simp only [get_output_format]
    have hnot : inferredFormat p ∉ VALID_OUTPUT_FORMATS := by
      intro hmem
      simp only [VALID_OUTPUT_FORMATS] at hmem
      rcases List.mem_cons.mp hmem with hh | hmem2
      · exact h1 hh
      · rcases List.mem_cons.mp hmem2 with hh | hmem3
        · exact h2 hh
        · exact absurd hmem3 (List.not_mem_nil _)
    rw [if_neg hnot]

/-- Witness for the amended C1: `a.mp3` dispatches to the MP3 writer, and
the CLI defaults `b.flac` to `wav`. -/
theorem writeAudioFile_format_dispatch_witness :
    writeAudioFile fullAudioEnv [] ("a.mp3".toList) 24000 none =
        write_mp3 fullAudioEnv [] ("a.mp3".toList) 24000 ("192k".toList) ∧
      get_output_format none ("b.flac".toList) = "wav".toList :=
  ⟨(writeAudioFile_format_dispatch fullAudioEnv [] ("a.mp3".toList) 24000).2.1
      (by decide),
   ((writeAudioFile_format_dispatch fullAudioEnv [] ("b.flac".toList) 24000).2.2
      (by decide) (by decide)).2⟩

/-- C5: when the ffmpeg probe fails and the pydub import fails, requesting
an MP3 write raises the `RuntimeError` whose message names the missing
ffmpeg dependency; the only side effect is the parent-directory creation,
so in particular no WAV file is written in place of the MP3. -/
theorem write_mp3_unavailable (env : AudioEnv) (samples : List ℚ) (p : PyStr)
    (sr : Nat) (br : PyStr)
    (h1 : env.hasFfmpeg = false) (h2 : env.pydubImportOk = false) :
    write_mp3 env samples p sr br =
        (.error (.runtimeError mp3RequiresFfmpegMsg), [.mkdirParents p]) ∧
      ("ffmpeg".toList) <:+: mp3RequiresFfmpegMsg ∧
      ∀ q, AudioEffect.finalWavWritten q ∉ (write_mp3 env samples p sr br).2 := by
  have hw : write_mp3 env samples p sr br =
      (.error (.runtimeError mp3RequiresFfmpegMsg), [.mkdirParents p]) := by
    simp [write_mp3, h1, h2]
  refine ⟨hw, ⟨"MP3 encoding requires ".toList,
    ". Please install ffmpeg and add it to your PATH.".toList, by decide⟩, ?_⟩
  rw [hw]
  intro q
  simp

/-- An environment with neither ffmpeg nor pydub available. -/
def noEncoderEnv : AudioEnv := ⟨false, false, true, .success⟩

/-- Witness for C5 at a concrete environment and path. -/
theorem write_mp3_unavailable_witness :
    write_mp3 noEncoderEnv [] ("song.mp3".toList) 24000 ("192k".toList) =
      (.error (.runtimeError mp3RequiresFfmpegMsg),
        [.mkdirParents ("song.mp3".toList)]) :=
  (write_mp3_unavailable noEncoderEnv [] ("song.mp3".toList) 24000
    ("192k".toList) rfl rfl).1

/-- C6: on every exit path of `_write_mp3_ffmpeg` — encoder success,
encoder non-zero exit, encoder timeout, and a raising temporary-file
write — the `unlink` of the temporary WAV file in the `finally` block is the
last effect and occurs exactly once. -/
theorem writeMp3Ffmpeg_always_unlinks (env : AudioEnv) (samples : List ℚ)
    (p : PyStr) (sr : Nat) (br : PyStr) :
    (writeMp3Ffmpeg env samples p sr br).2.getLast? =
        some .tmpWavUnlinkCalled ∧
      (writeMp3Ffmpeg env samples p sr br).2.count .tmpWavUnlinkCalled = 1 := by
  rcases env with ⟨hf, pd, tw, fr⟩
  cases tw <;> cases fr <;> exact ⟨rfl, rfl⟩

/-!
The pipeline factory (`pipeline.py`) and the announcer (`announcer.py`).
The `_pipeline` cell of the factory is explicit state; `_create_pipeline` is an
environment-supplied handle; the returned `Nat` counts how many times the
construction (with its side effects) ran during the call.
-/

/-- The pipeline cache cell `PipelineFactory._pipeline`. -/
structure PipelineFactoryState (H : Type) where
  pipeline : Option H

/-- Embedding of `PipelineFactory.__init__`: the cache starts empty. -/
def factoryInit (H : Type) : PipelineFactoryState H := ⟨none⟩

/-- Embedding of `PipelineFactory.get`: construct and cache the pipeline when the cell
is empty, otherwise return the cached handle.  Returns the handle, the
new state, and the number of constructions performed by this call. -/
def factoryGet {H : Type} (createPipeline : H) (s : PipelineFactoryState H) :
    H × PipelineFactoryState H × Nat :=
  match s.pipeline with
  | some handle => (handle, ⟨some handle⟩, 0)
  | none => (createPipeline, ⟨some createPipeline⟩, 1)

/-- Embedding of `PipelineFactory.reset`: clear the cache. -/
def factoryReset {H : Type} (s : PipelineFactoryState H) :
    PipelineFactoryState H := ⟨none⟩

/-- C7: two `get()` calls with no intervening `reset()` return the same
handle, the second call performs no construction, and starting from a
freshly initialized factory the construction runs exactly once across the
two calls. -/
theorem factoryGet_twice_cached {H : Type} (createPipeline : H)
    (s : PipelineFactoryState H) :
    (factoryGet createPipeline (factoryGet createPipeline s).2.1).1 =
        (factoryGet createPipeline s).1 ∧
      (factoryGet createPipeline (factoryGet createPipeline s).2.1).2.2 = 0 ∧
      (factoryGet createPipeline (factoryInit H)).2.2 +
        (factoryGet createPipeline
          (factoryGet createPipeline (factoryInit H)).2.1).2.2 = 1 := by
  rcases s with ⟨_ | handle⟩ <;> exact ⟨rfl, rfl, rfl⟩

/-- Per-segment result of the announcer (`announcer.SynthesisResult`). -/
structure SynthesisResult where
  graphemes : PyStr
  phonemes : PyStr
  samples : List ℚ

/-- The slice of `KokoroSettings` used by `synthesize_segments`. -/
structure KokoroSettings where
  speed : ℚ

/-- Embedding of `announcer.KokoroAnnouncer.synthesize_segments`: validate the text,
validate the speed override when given (otherwise use the settings
speed), and only then obtain the pipeline from the factory and run it.
The pipeline itself is external: its yielded segments are the
environment parameter `pipelineOut`.  The returned flag records whether
`pipeline_factory.get()` — and hence pipeline construction — was
reached. -/
def synthesize_segments (settings : KokoroSettings)
    (pipelineOut : List SynthesisResult) (text : PyStr) (speed : Option ℚ) :
    Except PyExn (List SynthesisResult) × Bool :=
  match validate_text text with
  | .error e => (.error e, false)
  | .ok _stripped =>
    match speed with
    | some sp =>
      match validate_speed sp with
      | .error e => (.error e, false)
      | .ok _ => (.ok pipelineOut, true)
    | none => (.ok pipelineOut, true)

/-- C4: for text that is empty after stripping, `synthesize_segments`
fails with a `ValidationError` and `get()` on the pipeline factory is
never invoked, so no pipeline construction occurs. -/
theorem synthesize_segments_empty_text (settings : KokoroSettings)
    (pipelineOut : List SynthesisResult) (text : PyStr) (speed : Option ℚ)
    (h : pyStrip text = []) :
    synthesize_segments settings pipelineOut text speed =
      (.error .validationError, false) := by
  unfold synthesize_segments validate_text
  rw [h]
  rfl

/-- Witness for C4: whitespace-only input is rejected before any pipeline
construction. -/
theorem synthesize_segments_empty_text_witness :
    synthesize_segments ⟨1⟩ [] ("  ".toList) none =
      (.error .validationError, false) :=
  synthesize_segments_empty_text ⟨1⟩ [] ("  ".toList) none (by decide)

end KokoroAnnounce
